import Mathlib

/-!
Shallow embedding of the `env_monitor` sensor-driver core (Rust crate,
files `src/sensors/dht11.rs`, `src/sensors/fire.rs`, `src/error.rs`)
and verification of its specification claims.

Conventions of the embedding:
* GPIO levels are the two-valued `Level` type (rppal `Level`).
* `SensorError` mirrors the error enum of `src/error.rs`; the payloads of
  `ioError`/`gpioError` are modelled as strings.
* Machine integers are `Nat` with explicit `% 256` where the Rust `u8`
  wraparound (release-profile) semantics matters; the default
  checked-profile semantics of `u8` addition is modelled separately by
  `checkedAddU8` (overflow = `none`, i.e. a panic).
* Time is modelled in abstract microsecond ticks: the decoder samples its
  line once per tick, so the line is a function `Nat → Level` and
  `Instant`s are `Nat`s.  The absolute deadline (`Instant::now() +
  Duration::from_millis(100)` in the source) is the `timeout` argument.
* Busy-wait loops become structural recursion on the distance to the
  deadline, which reproduces the loop exactly (the loop body re-checks the
  clock after every sample, so it runs `timeout - t` further iterations
  before failing).
-/

/-- rppal `Level`: the two logic levels of a GPIO line. -/
inductive Level where
  | low
  | high
deriving DecidableEq, Repr

/-- `SensorError` from `src/error.rs` (error payloads modelled as strings). -/
inductive SensorError where
  | ioError (msg : String)
  | gpioError (msg : String)
  | timeout (msg : String)
  | dataValidation (msg : String)
  | initError (msg : String)
  | sensorError (msg : String)
deriving DecidableEq, Repr

/-- `Dht11Data` from `src/sensors/dht11.rs`.  The Rust fields are `f32`,
but they are always produced by `u8 as f32`, which is exact on 0..255, so
the embedding keeps the underlying byte values as `Nat`. -/
structure Dht11Data where
  temperature : Nat
  humidity : Nat
deriving DecidableEq, Repr

/-- `FireSensorData` from `src/sensors/fire.rs`. -/
structure FireSensorData where
  flame_detected : Bool
  last_detection_timestamp : Option Nat
deriving DecidableEq, Repr

/-! ## DHT11 timed-protocol decoder (`src/sensors/dht11.rs`) -/

/-- One busy-wait loop `while pin.read() == lvl { if now > timeout { return
Err(Timeout msg) } }`, run with `d` ticks left until the deadline.  At each
iteration the line is sampled at the current tick `t`; if it still shows
the blocking level `lvl` and the deadline has passed (`d = 0`, i.e.
`t ≥ timeout`) the wait fails with the given phase message, otherwise the
loop continues one tick later.  The first sample showing a different level
ends the wait, returning the tick of that sample. -/
def dhtWaitGo (lvl : Level) (msg : String) (sample : Nat → Level) :
    Nat → Nat → Except SensorError Nat
  | 0, t =>
      if sample t = lvl then .error (.timeout msg) else .ok t
  | d + 1, t =>
      if sample t = lvl then dhtWaitGo lvl msg sample d (t + 1) else .ok t

/-- The busy-wait loop against the absolute deadline `timeout`, entered at
tick `t` (the `Instant::now() > timeout` comparison is strict, so with the
line stuck the loop body still runs at tick `timeout`). -/
def dhtWait (lvl : Level) (msg : String) (sample : Nat → Level)
    (timeout t : Nat) : Except SensorError Nat :=
  dhtWaitGo lvl msg sample (timeout - t) t

/-- The threshold decision of `dht11.rs` line 105: a high pulse strictly
longer than 40 µs is a 1 bit. -/
def dhtBit (durationUs : Nat) : Bool :=
  decide (40 < durationUs)

/-- Read one data bit (`dht11.rs` lines 84–107): wait out the low
separator, then measure how long the line stays high; returns the decoded
bit and the tick at which the line went low again. -/
def readBit (sample : Nat → Level) (timeout t : Nat) :
    Except SensorError (Bool × Nat) := do
  let tH ← dhtWait .low "Timed out while reading data bit" sample timeout t
  let tL ← dhtWait .high "Timed out during high level data bit reading"
      sample timeout tH
  pure (dhtBit (tL - tH), tL)

/-- Read the remaining `n` bits of one byte, most significant first
(`dht11.rs` lines 83–108: `*byte |= 1 << (7 - j)`): `acc` is the byte
assembled so far, `j` the index of the next bit. -/
def readByteAux (sample : Nat → Level) (timeout : Nat) :
    Nat → Nat → Nat → Nat → Except SensorError (Nat × Nat)
  | 0, _j, acc, t => .ok (acc, t)
  | n + 1, j, acc, t => do
      let (b, t') ← readBit sample timeout t
      readByteAux sample timeout n (j + 1)
        (acc + (if b then 2 ^ (7 - j) else 0)) t'

/-- Read one full byte (8 bits, MSB first). -/
def readByte (sample : Nat → Level) (timeout t : Nat) :
    Except SensorError (Nat × Nat) :=
  readByteAux sample timeout 8 0 0 t

/-- Read `n` consecutive bytes (`dht11.rs` line 82: the loop over the
5-byte buffer), returning them in order. -/
def readBytes (sample : Nat → Level) (timeout : Nat) :
    Nat → Nat → Except SensorError (List Nat × Nat)
  | 0, t => .ok ([], t)
  | n + 1, t => do
      let (b, t') ← readByte sample timeout t
      let (bs, t'') ← readBytes sample timeout n t'
      .ok (b :: bs, t'')

/-- Checksum validation and `Reading` construction (`dht11.rs` lines
111–124).  The Rust comparison `data[4] != (data[0] + data[1] + data[2] +
data[3])` is a chain of `u8` additions; under the release-profile
wraparound semantics this compares `data[4]` with the sum modulo 256.
On success only the integer parts `data[0]` (humidity) and `data[2]`
(temperature) enter the result. -/
def readFrame (data : List Nat) : Except SensorError Dht11Data :=
  if data.getD 4 0 ≠
      (data.getD 0 0 + data.getD 1 0 + data.getD 2 0 + data.getD 3 0) % 256
  then .error (.dataValidation "Checksum error")
  else .ok ⟨data.getD 2 0, data.getD 0 0⟩

/-- The default (checked-profile) semantics of one Rust `u8` addition:
the sum when it fits a byte, `none` (an overflow panic) otherwise. -/
def checkedAddU8 (x y : Nat) : Option Nat :=
  if x + y ≤ 255 then some (x + y) else none

/-- The checksum expression `data[0] + data[1] + data[2] + data[3]` of
`dht11.rs` line 112 under the default checked-profile `u8` semantics:
the left-associated chain of checked additions. -/
def dht11SumChecked (b0 b1 b2 b3 : Nat) : Option Nat := do
  let s1 ← checkedAddU8 b0 b1
  let s2 ← checkedAddU8 s1 b2
  checkedAddU8 s2 b3

/-- The whole checksum comparison of `dht11.rs` line 112 under the default
checked-profile semantics: `none` when the addition chain overflows
(a panic), otherwise whether `data[4]` equals the sum. -/
def dht11ChecksumChecked (b0 b1 b2 b3 b4 : Nat) : Option Bool :=
  (dht11SumChecked b0 b1 b2 b3).map (fun s => b4 == s)

/-- `Dht11Sensor::read_internal` after the start signal, entered at tick
`t0` with absolute deadline `timeout`: the three handshake waits
(`dht11.rs` lines 56–77), the 40-bit read (lines 80–109), and checksum
validation plus `Reading` construction (lines 111–124). -/
def readInternalT (sample : Nat → Level) (timeout t0 : Nat) :
    Except SensorError Dht11Data := do
  let t1 ← dhtWait .high "Waiting for DHT11 response timed out" sample timeout t0
  let t2 ← dhtWait .low "DHT11 response signal timed out" sample timeout t1
  let t3 ← dhtWait .high "DHT11 ready signal timed out" sample timeout t2
  let (data, _) ← readBytes sample timeout 5 t3
  readFrame data

/-- The deadline constant of `dht11.rs` line 56: 100 ms, in µs ticks. -/
def dht11TimeoutUs : Nat := 100 * 1000

/-- `Dht11Sensor::read_internal` with the deadline fixed as in the source:
100 ms after the start `t0` of the waiting phase. -/
def readInternal (sample : Nat → Level) (t0 : Nat) :
    Except SensorError Dht11Data :=
  readInternalT sample (t0 + dht11TimeoutUs) t0

/-- The five wait-phase timeout messages of `read_internal`, in protocol
order. -/
def dht11PhaseMessages : List String :=
  ["Waiting for DHT11 response timed out",
   "DHT11 response signal timed out",
   "DHT11 ready signal timed out",
   "Timed out while reading data bit",
   "Timed out during high level data bit reading"]

/-! ## Fire sensor (`src/sensors/fire.rs`) -/

/-- `FireSensor::read_internal` (`fire.rs` lines 60–86), after the line
has been acquired: `level` is the value `flame_sensor.read()` returns and
`clock` the result of the system-clock query (`none` models the
`duration_since` failure, which the source maps to `SensorError`).
The clock is only consulted when a flame is detected. -/
def fireReadInternal (highActive : Bool) (level : Level) (clock : Option Nat) :
    Except SensorError FireSensorData :=
  let flame_detected := if highActive then level == .high else level == .low
  if flame_detected then
    match clock with
    | some ts => .ok ⟨true, some ts⟩
    | none => .error (.sensorError "Time error")
  else .ok ⟨false, none⟩

/-- The closure `FireSensor::read_async` dispatches to its blocking worker
(`fire.rs` lines 136–162); the source duplicates the body of
`read_internal` rather than calling it, so the embedding transcribes the
closure separately. -/
def fireReadAsyncInner (highActive : Bool) (level : Level)
    (clock : Option Nat) : Except SensorError FireSensorData :=
  let flame_detected := if highActive then level == .high else level == .low
  let timestamp : Except SensorError (Option Nat) :=
    if flame_detected then
      match clock with
      | some ts => .ok (some ts)
      | none => .error (.sensorError "Time error")
    else .ok none
  match timestamp with
  | .error e => .error e
  | .ok ts => .ok ⟨flame_detected, ts⟩

/-- Outcome of the background task spawned by `start_monitoring`
(`fire.rs` lines 207–271): it either returns early because acquiring the
flame line or the buzzer line failed (the failure is only printed), or it
enters the monitoring loop. -/
inductive SpawnedOutcome where
  | initFailedFlame
  | initFailedBuzzer
  | enteredLoop
deriving DecidableEq, Repr

/-- `FireSensor::start_monitoring` (`fire.rs` lines 192–274).  The three
fallible acquisitions are inputs: `gpioNew` is `Gpio::new()` (checked with
`?` before spawning, so its failure is returned to the caller as a
`GpioError`), while `flameAcq`/`buzzerAcq` are the `gpio.get(..)` calls
performed inside the spawned task, whose failures make the task return
before the loop without reaching the caller.  The result pairs the value
returned to the caller with the spawned task's outcome. -/
def startMonitoringModel (gpioNew flameAcq buzzerAcq : Except String Unit) :
    Except SensorError (Unit × SpawnedOutcome) :=
  match gpioNew with
  | .error e => .error (.gpioError e)
  | .ok _ =>
      .ok ((),
        match flameAcq with
        | .error _ => .initFailedFlame
        | .ok _ =>
            match buzzerAcq with
            | .error _ => .initFailedBuzzer
            | .ok _ => .enteredLoop)

/-- The four driver operations of `FireSensor` that the continue-flag
invariant quantifies over. -/
inductive FireOp where
  | opStop
  | opStart
  | opRead
  | opReadAsync
deriving DecidableEq, Repr

/-- Effect of one driver operation on the shared `is_active` flag:
`stop_monitoring` (`fire.rs` lines 295–298) writes `false`;
`start_monitoring` only clones the `Arc` (the loop reads the flag but
never writes it), and `read`/`read_async` never touch it. -/
def applyFlag (b : Bool) (op : FireOp) : Bool :=
  match op with
  | .opStop => false
  | .opStart => b
  | .opRead => b
  | .opReadAsync => b

/-- Number of buzzer-line writes the operation itself performs on the
caller's thread: none of the four operations writes the buzzer
(`stop_monitoring` only takes the lock and clears the flag; all buzzer
writes in the source happen inside the spawned monitoring task). -/
def opBuzzerWrites (op : FireOp) : Nat :=
  match op with
  | .opStop => 0
  | .opStart => 0
  | .opRead => 0
  | .opReadAsync => 0

/-! ### The monitoring loop as a timed state machine

`fire.rs` lines 229–270.  One tick of the machine is one atomic piece of
the loop body; each step reports the wall time it consumes (in µs) and how
many alarm toggles (`buzzer.set_low()` / `buzzer.set_high()` pairs inside
the tone burst) it performs.  `interval` is `check_interval_ms`. -/

/-- `ALARM_FREQ` (`fire.rs` line 251). -/
def alarmFreq : Nat := 1000

/-- `ALARM_DURATION` in ms (`fire.rs` line 252). -/
def alarmDurationMs : Nat := 200

/-- `half_period = 1_000_000 / ALARM_FREQ / 2` (`fire.rs` line 254). -/
def halfPeriodUs : Nat := 1000000 / alarmFreq / 2

/-- `cycles = ALARM_DURATION * 1000 / (half_period * 2)`
(`fire.rs` line 255). -/
def alarmCycles : Nat := alarmDurationMs * 1000 / (halfPeriodUs * 2)

/-- Control point of the monitoring loop: at the flag check, inside the
tone burst with `k` cycles left, at the inter-poll sleep, or terminated
(flag seen false, buzzer forced off, loop broken). -/
inductive Phase where
  | check
  | burst (k : Nat)
  | sleepP
  | done
deriving DecidableEq, Repr

/-- One step of the monitoring loop.  Inputs: the current value of the
shared flag and of the flame line; output: the next phase, the wall time
consumed (µs) and the alarm toggles performed.  At `check` the flag is
consulted: `false` breaks the loop (forcing the buzzer off), `true` reads
the flame line and either starts a full tone burst or forces the buzzer
off and proceeds to the sleep.  Each burst cycle is one low/high toggle
pair of two half-period sleeps; after the burst the loop sleeps
`interval` ms and returns to the flag check.  `done` is absorbing. -/
def monStep (flag flame : Bool) (interval : Nat) : Phase → Phase × Nat × Nat
  | .check =>
      if flag then
        if flame then (.burst alarmCycles, 0, 0) else (.sleepP, 0, 0)
      else (.done, 0, 0)
  | .burst 0 => (.sleepP, 0, 0)
  | .burst (k + 1) => (.burst k, 2 * halfPeriodUs, 2)
  | .sleepP => (.check, interval * 1000, 0)
  | .done => (.done, 0, 0)

/-- Phases reachable by the monitoring loop from its entry point (the
first flag check), under arbitrary flag and flame histories. -/
inductive Reach (interval : Nat) : Phase → Prop where
  | init : Reach interval .check
  | step (flag flame : Bool) {p : Phase} :
      Reach interval p → Reach interval (monStep flag flame interval p).1

/-- Run the loop `n` steps with the flag held `false` (after
`stop_monitoring`, the flag stays `false`: `applyFlag` never resurrects
it), accumulating consumed time and performed toggles.  The flame input is
irrelevant once the flag is `false` (it is only read after a successful
flag check), so it is fixed arbitrarily. -/
def stopRun (interval : Nat) : Nat → Phase → Phase × Nat × Nat
  | 0, p => (p, 0, 0)
  | n + 1, p =>
      let s := monStep false false interval p
      let r := stopRun interval n s.1
      (r.1, s.2.1 + r.2.1, s.2.2 + r.2.2)

/-- Time (µs) still owed to an alarm burst in progress: the stop request
is only honoured after the burst completes. -/
def burstRemainderUs : Phase → Nat
  | .burst k => k * (2 * halfPeriodUs)
  | _ => 0

/-! ## Generic helpers -/

instance {ε α : Type} [DecidableEq ε] [DecidableEq α] : DecidableEq (Except ε α) := fun a b =>
  match a, b with
  | .ok x, .ok y =>
      if h : x = y then .isTrue (by rw [h]) else .isFalse (fun c => by cases c; exact h rfl)
  | .error x, .error y =>
      if h : x = y then .isTrue (by rw [h]) else .isFalse (fun c => by cases c; exact h rfl)
  | .ok _, .error _ => .isFalse (fun c => by cases c)
  | .error _, .ok _ => .isFalse (fun c => by cases c)

@[simp] theorem exceptBindOk {ε α β : Type} (a : α) (f : α → Except ε β) :
    (Except.ok a >>= f : Except ε β) = f a := rfl

@[simp] theorem exceptBindError {ε α β : Type} (e : ε) (f : α → Except ε β) :
    ((Except.error e : Except ε α) >>= f : Except ε β) = .error e := rfl

/-! ## Lemmas about the busy-wait loop -/

/-- The only error a wait loop produces is the timeout carrying its own
phase message. -/
theorem dhtWaitGo_error_eq {lvl : Level} {msg : String} {sample : Nat → Level} :
    ∀ {d t : Nat} {e : SensorError},
      dhtWaitGo lvl msg sample d t = .error e → e = .timeout msg := by
  intro d
  induction d with
  | zero =>
      intro t e h
      by_cases hs : sample t = lvl
      · simp [dhtWaitGo, hs] at h
        exact h.symm
      · simp [dhtWaitGo, hs] at h
  | succ d ih =>
      intro t e h
      by_cases hs : sample t = lvl
      · simp [dhtWaitGo, hs] at h
        exact ih h
      · simp [dhtWaitGo, hs] at h

/-- If the line holds the blocking level at every tick through the run of
the loop, the wait fails with its timeout. -/
theorem dhtWaitGo_stuck {lvl : Level} {msg : String} {sample : Nat → Level} :
    ∀ (d t : Nat), (∀ u, t ≤ u → u ≤ t + d → sample u = lvl) →
      dhtWaitGo lvl msg sample d t = .error (.timeout msg) := by
  intro d
  induction d with
  | zero =>
      intro t h
      simp [dhtWaitGo, h t le_rfl (by omega)]
  | succ d ih =>
      intro t h
      simp [dhtWaitGo, h t le_rfl (by omega)]
      exact ih (t + 1) (fun u h1 h2 => h u (by omega) (by omega))

/-- A successful wait ends between its entry tick and the deadline. -/
theorem dhtWaitGo_ok_bounds {lvl : Level} {msg : String} {sample : Nat → Level} :
    ∀ {d t t' : Nat},
      dhtWaitGo lvl msg sample d t = .ok t' → t ≤ t' ∧ t' ≤ t + d := by
  intro d
  induction d with
  | zero =>
      intro t t' h
      by_cases hs : sample t = lvl
      · simp [dhtWaitGo, hs] at h
      · simp [dhtWaitGo, hs] at h
        omega
  | succ d ih =>
      intro t t' h
      by_cases hs : sample t = lvl
      · simp [dhtWaitGo, hs] at h
        have := ih h
        omega
      · simp [dhtWaitGo, hs] at h
        omega

/-- The only error `dhtWait` produces is the timeout carrying its own
phase message. -/
theorem dhtWait_error_eq {lvl : Level} {msg : String} {sample : Nat → Level}
    {timeout t : Nat} {e : SensorError}
    (h : dhtWait lvl msg sample timeout t = .error e) : e = .timeout msg :=
  dhtWaitGo_error_eq h

/-- A wait entered before the deadline on a line that never leaves the
blocking level before the deadline fails with its timeout. -/
theorem dhtWait_stuck {lvl : Level} {msg : String} {sample : Nat → Level}
    {timeout t : Nat} (ht : t ≤ timeout)
    (h : ∀ u, t ≤ u → u ≤ timeout → sample u = lvl) :
    dhtWait lvl msg sample timeout t = .error (.timeout msg) := by
  unfold dhtWait
  exact dhtWaitGo_stuck _ _ (fun u h1 h2 => h u h1 (by omega))

/-- A successful wait entered before the deadline ends no later than the
deadline. -/
theorem dhtWait_ok_le {lvl : Level} {msg : String} {sample : Nat → Level}
    {timeout t t' : Nat} (ht : t ≤ timeout)
    (h : dhtWait lvl msg sample timeout t = .ok t') : t ≤ t' ∧ t' ≤ timeout := by
  have := dhtWaitGo_ok_bounds h
  omega

/-! ## Claims about the DHT11 frame decode (checksum and Reading) -/

/-- C1: a 5-byte wire sequence whose checksum byte equals the wrapping sum
of the four data bytes is accepted, and the Reading carries `byte[2]` as
temperature and `byte[0]` as humidity; the fractional bytes `byte[1]` and
`byte[3]` do not appear in the result. -/
theorem dht11_frame_accepts_valid (b0 b1 b2 b3 b4 : Nat)
    (_h0 : b0 < 256) (_h1 : b1 < 256) (_h2 : b2 < 256) (_h3 : b3 < 256)
    (_h4 : b4 < 256) (hsum : b4 = (b0 + b1 + b2 + b3) % 256) :
    readFrame [b0, b1, b2, b3, b4] = .ok ⟨b2, b0⟩ := by
  simp [readFrame, hsum]

/-- Witness for C1: the spec's end-to-end frame
`[0x32, 0x00, 0x1C, 0x00, 0x4E]` decodes to temperature 28, humidity 50. -/
theorem dht11_frame_accepts_valid_witness :
    readFrame [0x32, 0x00, 0x1C, 0x00, 0x4E] = .ok ⟨0x1C, 0x32⟩ :=
  dht11_frame_accepts_valid 0x32 0x00 0x1C 0x00 0x4E (by decide) (by decide)
    (by decide) (by decide) (by decide) (by decide)

/-- C2: a 5-byte wire sequence violating the checksum relation is rejected
with the `DataValidation` checksum error and no Reading is produced (the
`Except` result carries no `Dht11Data` in the error case). -/
theorem dht11_frame_rejects_invalid (b0 b1 b2 b3 b4 : Nat)
    (_h0 : b0 < 256) (_h1 : b1 < 256) (_h2 : b2 < 256) (_h3 : b3 < 256)
    (_h4 : b4 < 256) (hsum : b4 ≠ (b0 + b1 + b2 + b3) % 256) :
    readFrame [b0, b1, b2, b3, b4] = .error (.dataValidation "Checksum error") := by
  simp [readFrame, hsum]

/-- Witness for C2: the spec's corrupted frame
`[0x32, 0x00, 0x1C, 0x00, 0x4F]` is rejected. -/
theorem dht11_frame_rejects_invalid_witness :
    readFrame [0x32, 0x00, 0x1C, 0x00, 0x4F] =
      .error (.dataValidation "Checksum error") :=
  dht11_frame_rejects_invalid 0x32 0x00 0x1C 0x00 0x4F (by decide) (by decide)
    (by decide) (by decide) (by decide) (by decide)

/-- C9: evaluation of the checksum comparison at the frame
`[200, 200, 0, 0, 144]` (byte sum 400, so `144 = 400 mod 256` is the
correct wrapping checksum).  Under the default checked-profile `u8`
semantics the addition chain of `dht11.rs` line 112 overflows (`none`,
i.e. a panic) instead of completing, while under the release-profile
wraparound semantics the frame is accepted: the overflow branch of the
native addition is reachable, contradicting the intended total modular
comparison. -/
theorem dht11_checksum_native_add_overflows :
    dht11ChecksumChecked 200 200 0 0 144 = none ∧
      readFrame [200, 200, 0, 0, 144] = .ok ⟨0, 200⟩ := by
  exact ⟨by decide, by rfl⟩

/-! ## Claim about bit decoding and packing -/

/-- C4: the bit decision and the packing order.  First conjunct: when the
low separator ends at `tH` and the line goes low again at `tL`, the
measured high duration is `tL - tH`; a duration of at most 40 µs decodes
as bit 0 and a strictly longer one (41 µs or more) as bit 1.  Second
conjunct: the eight bits of a byte are packed most-significant-bit first:
bit `j` contributes `2 ^ (7 - j)`. -/
theorem dht11_bit_threshold_and_packing (sample : Nat → Level) (timeout t : Nat) :
    (∀ tH tL,
        dhtWait .low "Timed out while reading data bit" sample timeout t = .ok tH →
        dhtWait .high "Timed out during high level data bit reading" sample
            timeout tH = .ok tL →
        (tL - tH ≤ 40 → readBit sample timeout t = .ok (false, tL)) ∧
        (40 < tL - tH → readBit sample timeout t = .ok (true, tL))) ∧
    (∀ (b0 b1 b2 b3 b4 b5 b6 b7 : Bool) (t1 t2 t3 t4 t5 t6 t7 t8 : Nat),
        readBit sample timeout t = .ok (b0, t1) →
        readBit sample timeout t1 = .ok (b1, t2) →
        readBit sample timeout t2 = .ok (b2, t3) →
        readBit sample timeout t3 = .ok (b3, t4) →
        readBit sample timeout t4 = .ok (b4, t5) →
        readBit sample timeout t5 = .ok (b5, t6) →
        readBit sample timeout t6 = .ok (b6, t7) →
        readBit sample timeout t7 = .ok (b7, t8) →
        readByte sample timeout t =
          .ok ((if b0 then 2 ^ 7 else 0) + (if b1 then 2 ^ 6 else 0) +
               (if b2 then 2 ^ 5 else 0) + (if b3 then 2 ^ 4 else 0) +
               (if b4 then 2 ^ 3 else 0) + (if b5 then 2 ^ 2 else 0) +
               (if b6 then 2 ^ 1 else 0) + (if b7 then 2 ^ 0 else 0), t8)) := by
  constructor
  · intro tH tL h1 h2
    constructor
    · intro hd
      simp only [readBit, h1, h2, exceptBindOk, dhtBit]
      simp [pure, Except.pure, decide_eq_false_iff_not]
      omega
    · intro hd
      simp only [readBit, h1, h2, exceptBindOk, dhtBit]
      simp [pure, Except.pure]
      omega
  · intro b0 b1 b2 b3 b4 b5 b6 b7 t1 t2 t3 t4 t5 t6 t7 t8 g0 g1 g2 g3 g4 g5 g6 g7
    simp only [readByte, readByteAux, g0, g1, g2, g3, g4, g5, g6, g7, exceptBindOk]
    norm_num

/-- Witness for C4: on a line alternating low/high every tick, each bit
has a high duration of 1 µs, decodes as 0, and the byte packs to 0. -/
theorem dht11_bit_threshold_and_packing_witness :
    readBit (fun u => if u % 2 = 0 then Level.low else Level.high) 100 0 =
        .ok (false, 2) ∧
      readByte (fun u => if u % 2 = 0 then Level.low else Level.high) 100 0 =
        .ok (0, 16) := by
  have h := dht11_bit_threshold_and_packing
    (fun u => if u % 2 = 0 then Level.low else Level.high) 100 0
  constructor
  · exact (h.1 1 2 (by decide) (by decide)).1 (by decide)
  · have h2 := h.2 false false false false false false false false
      2 4 6 8 10 12 14 16 (by decide) (by decide) (by decide) (by decide)
      (by decide) (by decide) (by decide) (by decide)
    simpa using h2

/-! ## Claim about timeout handling -/

/-- The only errors a bit read produces are the two bit-phase timeouts. -/
theorem readBit_error_class {sample : Nat → Level} {timeout t : Nat} {e : SensorError}
    (h : readBit sample timeout t = .error e) :
    e = .timeout "Timed out while reading data bit" ∨
      e = .timeout "Timed out during high level data bit reading" := by
  cases h1 : dhtWait .low "Timed out while reading data bit" sample timeout t with
  | error e1 =>
      left
      simp [readBit, h1] at h
      subst h
      exact dhtWait_error_eq h1
  | ok tH =>
      cases h2 : dhtWait .high "Timed out during high level data bit reading"
          sample timeout tH with
      | error e2 =>
          right
          simp [readBit, h1, h2] at h
          subst h
          exact dhtWait_error_eq h2
      | ok tL =>
          simp [readBit, h1, h2, pure, Except.pure] at h

/-- The only errors of the byte-assembly loop are the two bit-phase
timeouts. -/
theorem readByteAux_error_class {sample : Nat → Level} {timeout : Nat} :
    ∀ {n j acc t : Nat} {e : SensorError},
      readByteAux sample timeout n j acc t = .error e →
      e = .timeout "Timed out while reading data bit" ∨
        e = .timeout "Timed out during high level data bit reading" := by
  intro n
  induction n with
  | zero =>
      intro j acc t e h
      simp [readByteAux] at h
  | succ n ih =>
      intro j acc t e h
      cases hb : readBit sample timeout t with
      | error eb =>
          simp [readByteAux, hb] at h
          subst h
          exact readBit_error_class hb
      | ok p =>
          obtain ⟨b, t'⟩ := p
          simp [readByteAux, hb] at h
          exact ih h

/-- The only errors of the multi-byte read are the two bit-phase
timeouts. -/
theorem readBytes_error_class {sample : Nat → Level} {timeout : Nat} :
    ∀ {n t : Nat} {e : SensorError},
      readBytes sample timeout n t = .error e →
      e = .timeout "Timed out while reading data bit" ∨
        e = .timeout "Timed out during high level data bit reading" := by
  intro n
  induction n with
  | zero =>
      intro t e h
      simp [readBytes] at h
  | succ n ih =>
      intro t e h
      cases hb : readByte sample timeout t with
      | error eb =>
          simp [readBytes, hb] at h
          subst h
          exact readByteAux_error_class hb
      | ok p =>
          obtain ⟨b, t'⟩ := p
          cases hr : readBytes sample timeout n t' with
          | error er =>
              simp [readBytes, hb, hr] at h
              subst h
              exact ih hr
          | ok q =>
              obtain ⟨bs, t''⟩ := q
              simp [readBytes, hb, hr] at h

/-- The only error of the frame validation is the checksum error. -/
theorem readFrame_error_class {data : List Nat} {e : SensorError}
    (h : readFrame data = .error e) : e = .dataValidation "Checksum error" := by
  unfold readFrame at h
  split at h
  · exact (Except.error.injEq _ _).mp h |>.symm
  · cases h

/-- Every error of the full decode is a timeout carrying one of the five
wait-phase messages, or the checksum error. -/
theorem readInternalT_error_class {sample : Nat → Level} {timeout t0 : Nat}
    {e : SensorError} (h : readInternalT sample timeout t0 = .error e) :
    (∃ m, m ∈ dht11PhaseMessages ∧ e = SensorError.timeout m) ∨
      e = SensorError.dataValidation "Checksum error" := by
  cases h1 : dhtWait .high "Waiting for DHT11 response timed out" sample timeout t0 with
  | error e1 =>
      left
      simp [readInternalT, h1] at h
      subst h
      exact ⟨_, by simp [dht11PhaseMessages], dhtWait_error_eq h1⟩
  | ok t1 =>
  cases h2 : dhtWait .low "DHT11 response signal timed out" sample timeout t1 with
  | error e2 =>
      left
      simp [readInternalT, h1, h2] at h
      subst h
      exact ⟨_, by simp [dht11PhaseMessages], dhtWait_error_eq h2⟩
  | ok t2 =>
  cases h3 : dhtWait .high "DHT11 ready signal timed out" sample timeout t2 with
  | error e3 =>
      left
      simp [readInternalT, h1, h2, h3] at h
      subst h
      exact ⟨_, by simp [dht11PhaseMessages], dhtWait_error_eq h3⟩
  | ok t3 =>
  cases h4 : readBytes sample timeout 5 t3 with
  | error e4 =>
      left
      simp [readInternalT, h1, h2, h3, h4] at h
      subst h
      rcases readBytes_error_class h4 with h5 | h5 <;>
        exact ⟨_, by simp [dht11PhaseMessages], h5⟩
  | ok p =>
      obtain ⟨data, tEnd⟩ := p
      right
      simp [readInternalT, h1, h2, h3, h4] at h
      exact readFrame_error_class h

/-- C3: timeout handling of the decode against the 100 ms deadline.
First conjunct: every error the decode returns is a `Timeout` whose
message is one of the five wait-phase messages, or the checksum
`DataValidation` error — and since the result type is `Except`, an error
result carries no Reading and no byte or checksum state.  The remaining
conjuncts show that a line transition missing its deadline at each of the
five wait phases (the three handshake waits and the two per-bit waits,
here at the first bit) aborts the whole decode with exactly that phase's
`Timeout` error. -/
theorem dht11_timeout_identifies_phase (sample : Nat → Level) (t0 : Nat) :
    (∀ e, readInternal sample t0 = .error e →
        (∃ m, m ∈ dht11PhaseMessages ∧ e = SensorError.timeout m) ∨
          e = SensorError.dataValidation "Checksum error") ∧
    ((∀ u, t0 ≤ u → u ≤ t0 + dht11TimeoutUs → sample u = Level.high) →
        readInternal sample t0 =
          .error (.timeout "Waiting for DHT11 response timed out")) ∧
    (∀ t1,
        dhtWait .high "Waiting for DHT11 response timed out" sample
            (t0 + dht11TimeoutUs) t0 = .ok t1 →
        (∀ u, t1 ≤ u → u ≤ t0 + dht11TimeoutUs → sample u = Level.low) →
        readInternal sample t0 =
          .error (.timeout "DHT11 response signal timed out")) ∧
    (∀ t1 t2,
        dhtWait .high "Waiting for DHT11 response timed out" sample
            (t0 + dht11TimeoutUs) t0 = .ok t1 →
        dhtWait .low "DHT11 response signal timed out" sample
            (t0 + dht11TimeoutUs) t1 = .ok t2 →
        (∀ u, t2 ≤ u → u ≤ t0 + dht11TimeoutUs → sample u = Level.high) →
        readInternal sample t0 =
          .error (.timeout "DHT11 ready signal timed out")) ∧
    (∀ t1 t2 t3,
        dhtWait .high "Waiting for DHT11 response timed out" sample
            (t0 + dht11TimeoutUs) t0 = .ok t1 →
        dhtWait .low "DHT11 response signal timed out" sample
            (t0 + dht11TimeoutUs) t1 = .ok t2 →
        dhtWait .high "DHT11 ready signal timed out" sample
            (t0 + dht11TimeoutUs) t2 = .ok t3 →
        (∀ u, t3 ≤ u → u ≤ t0 + dht11TimeoutUs → sample u = Level.low) →
        readInternal sample t0 =
          .error (.timeout "Timed out while reading data bit")) ∧
    (∀ t1 t2 t3 t4,
        dhtWait .high "Waiting for DHT11 response timed out" sample
            (t0 + dht11TimeoutUs) t0 = .ok t1 →
        dhtWait .low "DHT11 response signal timed out" sample
            (t0 + dht11TimeoutUs) t1 = .ok t2 →
        dhtWait .high "DHT11 ready signal timed out" sample
            (t0 + dht11TimeoutUs) t2 = .ok t3 →
        dhtWait .low "Timed out while reading data bit" sample
            (t0 + dht11TimeoutUs) t3 = .ok t4 →
        (∀ u, t4 ≤ u → u ≤ t0 + dht11TimeoutUs → sample u = Level.high) →
        readInternal sample t0 =
          .error (.timeout "Timed out during high level data bit reading")) := by
  have ht0 : t0 ≤ t0 + dht11TimeoutUs := by omega
  refine ⟨?_, ?_, ?_, ?_, ?_, ?_⟩
  · intro e h
    exact readInternalT_error_class h
  · intro hstuck
    have hw : dhtWait .high "Waiting for DHT11 response timed out" sample
        (t0 + dht11TimeoutUs) t0 =
        .error (.timeout "Waiting for DHT11 response timed out") :=
      dhtWait_stuck ht0 hstuck
    simp [readInternal, readInternalT, hw]
  · intro t1 h1 hstuck
    have hw : dhtWait .low "DHT11 response signal timed out" sample
        (t0 + dht11TimeoutUs) t1 =
        .error (.timeout "DHT11 response signal timed out") :=
      dhtWait_stuck (dhtWait_ok_le ht0 h1).2 hstuck
    simp [readInternal, readInternalT, h1, hw]
  · intro t1 t2 h1 h2 hstuck
    have hb1 := dhtWait_ok_le ht0 h1
    have hb2 := dhtWait_ok_le hb1.2 h2
    have hw : dhtWait .high "DHT11 ready signal timed out" sample
        (t0 + dht11TimeoutUs) t2 =
        .error (.timeout "DHT11 ready signal timed out") :=
      dhtWait_stuck hb2.2 hstuck
    simp [readInternal, readInternalT, h1, h2, hw]
  · intro t1 t2 t3 h1 h2 h3 hstuck
    have hb1 := dhtWait_ok_le ht0 h1
    have hb2 := dhtWait_ok_le hb1.2 h2
    have hb3 := dhtWait_ok_le hb2.2 h3
    have hw : dhtWait .low "Timed out while reading data bit" sample
        (t0 + dht11TimeoutUs) t3 =
        .error (.timeout "Timed out while reading data bit") :=
      dhtWait_stuck hb3.2 hstuck
    have hbit : readBit sample (t0 + dht11TimeoutUs) t3 =
        .error (.timeout "Timed out while reading data bit") := by
      simp [readBit, hw]
    have hbyte : readByte sample (t0 + dht11TimeoutUs) t3 =
        .error (.timeout "Timed out while reading data bit") := by
      simp [readByte, readByteAux, hbit]
    have hbytes : readBytes sample (t0 + dht11TimeoutUs) 5 t3 =
        .error (.timeout "Timed out while reading data bit") := by
      simp [readBytes, hbyte]
    simp [readInternal, readInternalT, h1, h2, h3, hbytes]
  · intro t1 t2 t3 t4 h1 h2 h3 h4 hstuck
    have hb1 := dhtWait_ok_le ht0 h1
    have hb2 := dhtWait_ok_le hb1.2 h2
    have hb3 := dhtWait_ok_le hb2.2 h3
    have hb4 := dhtWait_ok_le hb3.2 h4
    have hw : dhtWait .high "Timed out during high level data bit reading" sample
        (t0 + dht11TimeoutUs) t4 =
        .error (.timeout "Timed out during high level data bit reading") :=
      dhtWait_stuck hb4.2 hstuck
    have hbit : readBit sample (t0 + dht11TimeoutUs) t3 =
        .error (.timeout "Timed out during high level data bit reading") := by
      simp [readBit, h4, hw]
    have hbyte : readByte sample (t0 + dht11TimeoutUs) t3 =
        .error (.timeout "Timed out during high level data bit reading") := by
      simp [readByte, readByteAux, hbit]
    have hbytes : readBytes sample (t0 + dht11TimeoutUs) 5 t3 =
        .error (.timeout "Timed out during high level data bit reading") := by
      simp [readBytes, hbyte]
    simp [readInternal, readInternalT, h1, h2, h3, hbytes]

/-- Witness for C3: a line stuck high from the start times out in the
response-wait phase; a line stuck low times out in the response-signal
phase. -/
theorem dht11_timeout_identifies_phase_witness :
    readInternal (fun _ => Level.high) 0 =
        .error (.timeout "Waiting for DHT11 response timed out") ∧
      readInternal (fun _ => Level.low) 0 =
        .error (.timeout "DHT11 response signal timed out") := by
  constructor
  · exact (dht11_timeout_identifies_phase (fun _ => Level.high) 0).2.1
      (fun u _ _ => rfl)
  · exact (dht11_timeout_identifies_phase (fun _ => Level.low) 0).2.2.1 0
      (by rfl) (fun u _ _ => rfl)

/-! ## Claims about the fire monitor -/

/-- Any phase the monitoring loop can reach is the flag check, the sleep,
the terminal state, or a burst with at most the full number of alarm
cycles left. -/
theorem reach_phases {interval : Nat} {p : Phase} (h : Reach interval p) :
    p = .check ∨ p = .sleepP ∨ p = .done ∨ ∃ k, k ≤ alarmCycles ∧ p = .burst k := by
  induction h with
  | init => exact .inl rfl
  | step flag flame hp ih =>
      rcases ih with h1 | h1 | h1 | ⟨k, hk, h1⟩
      · subst h1
        cases flag
        · exact .inr (.inr (.inl (by simp [monStep])))
        · cases flame
          · exact .inr (.inl (by simp [monStep]))
          · exact .inr (.inr (.inr ⟨alarmCycles, le_rfl, by simp [monStep]⟩))
      · subst h1
        exact .inl (by simp [monStep])
      · subst h1
        exact .inr (.inr (.inl (by simp [monStep])))
      · subst h1
        cases k with
        | zero => exact .inr (.inl (by simp [monStep]))
        | succ k' => exact .inr (.inr (.inr ⟨k', by omega, by simp [monStep]⟩))

/-- The terminal state is absorbing: no time passes and no toggles occur
after it. -/
theorem stopRun_done (interval : Nat) : ∀ n, stopRun interval n .done = (.done, 0, 0) := by
  intro n
  induction n with
  | zero => rfl
  | succ n ih => simp [stopRun, monStep, ih]

/-- From the flag check, a cleared flag terminates the loop immediately. -/
theorem stopRun_check (interval : Nat) : stopRun interval 1 .check = (.done, 0, 0) := by
  simp [stopRun, monStep]

/-- From the inter-poll sleep, the loop terminates after one interval. -/
theorem stopRun_sleep (interval : Nat) :
    stopRun interval 2 .sleepP = (.done, interval * 1000, 0) := by
  simp [stopRun, monStep]

/-- One-step unfolding of `stopRun`. -/
theorem stopRun_succ (interval n : Nat) (p : Phase) :
    stopRun interval (n + 1) p =
      ((stopRun interval n (monStep false false interval p).1).1,
       (monStep false false interval p).2.1 +
         (stopRun interval n (monStep false false interval p).1).2.1,
       (monStep false false interval p).2.2 +
         (stopRun interval n (monStep false false interval p).1).2.2) := rfl

/-- From inside a burst with `k` cycles left, the loop terminates after
finishing the burst (`k` cycles) plus one inter-poll sleep. -/
theorem stopRun_burst (interval : Nat) :
    ∀ k, stopRun interval (k + 3) (.burst k) =
      (.done, k * (2 * halfPeriodUs) + interval * 1000, 2 * k) := by
  intro k
  induction k with
  | zero => simp [stopRun, monStep]
  | succ k ih =>
      have hs : k + 1 + 3 = (k + 3) + 1 := by omega
      have hm : monStep false false interval (.burst (k + 1)) =
          (.burst k, 2 * halfPeriodUs, 2) := rfl
      rw [hs, stopRun_succ, hm]
      simp [ih]
      constructor <;> ring

/-- Runs of the stopped loop compose. -/
theorem stopRun_add (interval : Nat) :
    ∀ a b p, stopRun interval (a + b) p =
      ((stopRun interval b (stopRun interval a p).1).1,
       (stopRun interval a p).2.1 + (stopRun interval b (stopRun interval a p).1).2.1,
       (stopRun interval a p).2.2 + (stopRun interval b (stopRun interval a p).1).2.2) := by
  intro a
  induction a with
  | zero => intro b p; simp [stopRun]
  | succ a ih =>
      intro b p
      have hs : a + 1 + b = (a + b) + 1 := by omega
      rw [hs]
      simp only [stopRun, ih]
      simp only [Prod.mk.injEq, true_and]
      constructor <;> ring

/-- C6: from any reachable state of the monitoring loop, once the
continue-flag is false the loop reaches its terminal state (flag observed
false, buzzer forced off, loop broken) within at most one poll interval
plus the remainder of any alarm burst in progress, and past that point the
toggle count never grows: no further buzzer toggling occurs. -/
theorem fire_stop_latency (interval : Nat) (p : Phase) (hp : Reach interval p) :
    ∃ n, (stopRun interval n p).1 = .done ∧
      (stopRun interval n p).2.1 ≤ burstRemainderUs p + interval * 1000 ∧
      ∀ m, n ≤ m → (stopRun interval m p).1 = .done ∧
        (stopRun interval m p).2.2 = (stopRun interval n p).2.2 := by
  have key : ∀ n, (stopRun interval n p).1 = .done → ∀ m, n ≤ m →
      (stopRun interval m p).1 = .done ∧
        (stopRun interval m p).2.2 = (stopRun interval n p).2.2 := by
    intro n hdone m hm
    have hsplit : m = n + (m - n) := by omega
    rw [hsplit, stopRun_add, hdone, stopRun_done]
    simp
  rcases reach_phases hp with h | h | h | ⟨k, hk, h⟩ <;> subst h
  · refine ⟨1, ?_, ?_, key 1 ?_⟩ <;> simp [stopRun_check, burstRemainderUs]
  · refine ⟨2, ?_, ?_, key 2 ?_⟩ <;> simp [stopRun_sleep, burstRemainderUs]
  · refine ⟨0, rfl, by simp [stopRun], key 0 rfl⟩
  · refine ⟨k + 3, ?_, ?_, key (k + 3) ?_⟩ <;> simp [stopRun_burst, burstRemainderUs]

/-- Witness for C6: a stop requested at the start of a full alarm burst,
with a 10 ms poll interval, is honoured within the burst plus one
interval. -/
theorem fire_stop_latency_witness :
    Reach 10 (Phase.burst alarmCycles) ∧
      ∃ n, (stopRun 10 n (Phase.burst alarmCycles)).1 = Phase.done ∧
        (stopRun 10 n (Phase.burst alarmCycles)).2.1 ≤
          burstRemainderUs (Phase.burst alarmCycles) + 10 * 1000 ∧
        ∀ m, n ≤ m → (stopRun 10 m (Phase.burst alarmCycles)).1 = Phase.done ∧
          (stopRun 10 m (Phase.burst alarmCycles)).2.2 =
            (stopRun 10 n (Phase.burst alarmCycles)).2.2 := by
  have hr : Reach 10 (Phase.burst alarmCycles) := Reach.step true true Reach.init
  exact ⟨hr, fire_stop_latency 10 _ hr⟩

/-- C7: the continue-flag, once false, stays false under any sequence of
driver operations; `stop_monitoring` is an idempotent write of `false`
that has no failure mode (it returns `Unit`), and any number of stop calls
performs no buzzer write. -/
theorem fire_flag_never_resurrected (ops : List FireOp) (b : Bool) (n : Nat) :
    ops.foldl applyFlag false = false ∧
      applyFlag (applyFlag b .opStop) .opStop = applyFlag b .opStop ∧
      (List.replicate n FireOp.opStop).foldl
          (fun acc op => acc + opBuzzerWrites op) 0 = 0 := by
  refine ⟨?_, rfl, ?_⟩
  · induction ops with
    | nil => rfl
    | cons op ops ih =>
        have h : applyFlag false op = false := by cases op <;> rfl
        simp [List.foldl, h, ih]
  · induction n with
    | zero => rfl
    | succ n ih =>
        have h0 : (0 : Nat) + opBuzzerWrites .opStop = 0 := rfl
        simp only [List.replicate, List.foldl, h0]
        exact ih

/-- C8: the single-shot status read maps a High level to a detection with
a timestamp and a Low level to no detection with no timestamp under
high-active polarity, and inverts the mapping under low-active polarity;
it performs no buzzer write and leaves the continue-flag unchanged. -/
theorem fire_polarity_single_shot (ts : Nat) (c : Option Nat) (b : Bool) :
    fireReadInternal true .high (some ts) = .ok ⟨true, some ts⟩ ∧
      fireReadInternal true .low c = .ok ⟨false, none⟩ ∧
      fireReadInternal false .low (some ts) = .ok ⟨true, some ts⟩ ∧
      fireReadInternal false .high c = .ok ⟨false, none⟩ ∧
      applyFlag b FireOp.opRead = b ∧ opBuzzerWrites FireOp.opRead = 0 :=
  ⟨rfl, rfl, rfl, rfl, rfl, rfl⟩

/-- C10: the computation `read_async` dispatches to its worker computes
exactly the same function as the synchronous `read_internal`, for every
polarity configuration, line level and clock outcome. -/
theorem fire_read_async_equals_read (highActive : Bool) (level : Level)
    (clock : Option Nat) :
    fireReadAsyncInner highActive level clock =
      fireReadInternal highActive level clock := by
  cases highActive <;> cases level <;> cases clock <;> rfl

/-- Counterexample to C5 as stated: with a healthy GPIO controller but a
failing flame-line acquisition, `start_monitoring` returns `Ok` to the
caller — not an initialization-class error.  (The acquisition happens
inside the spawned task, which only logs the failure and exits.) -/
theorem fire_start_line_failure_not_error :
    startMonitoringModel (.ok ()) (.error "line busy") (.ok ()) =
      .ok ((), SpawnedOutcome.initFailedFlame) := rfl

/-- C5 (amended): only a `Gpio::new` failure is returned synchronously to
the caller, as a `GpioError`; a failure to acquire the flame or buzzer
line makes the spawned task exit before the monitoring loop ever runs
(the monitor does not reach Running), but `start_monitoring` still
returns `Ok` to the caller. -/
theorem fire_start_init_failure_behavior (g f bz : Except String Unit) :
    (∀ e, g = .error e → startMonitoringModel g f bz = .error (.gpioError e)) ∧
      (∀ ef, g = .ok () → f = .error ef →
        startMonitoringModel g f bz = .ok ((), .initFailedFlame)) ∧
      (∀ eb, g = .ok () → f = .ok () → bz = .error eb →
        startMonitoringModel g f bz = .ok ((), .initFailedBuzzer)) ∧
      SpawnedOutcome.initFailedFlame ≠ SpawnedOutcome.enteredLoop ∧
      SpawnedOutcome.initFailedBuzzer ≠ SpawnedOutcome.enteredLoop := by
  refine ⟨?_, ?_, ?_, by decide, by decide⟩
  · intro e he
    subst he
    rfl
  · intro ef hg hf
    subst hg
    subst hf
    rfl
  · intro eb hg hf hb
    subst hg
    subst hf
    subst hb
    rfl

/-- Witness for the amended C5. -/
theorem fire_start_init_failure_behavior_witness :
    startMonitoringModel (.ok ()) (.error "line busy") (.ok ()) =
        .ok ((), SpawnedOutcome.initFailedFlame) ∧
      startMonitoringModel (.error "gpio dead") (.ok ()) (.ok ()) =
        .error (.gpioError "gpio dead") :=
  ⟨(fire_start_init_failure_behavior _ _ _).2.1 "line busy" rfl rfl,
   (fire_start_init_failure_behavior _ _ _).1 "gpio dead" rfl⟩
